import Mathlib

/-!
Shallow embedding of the ALMA financial-exchange control platform
(`config.py`, `utils.py`, `database.py`, `crud.py`).

Money amounts are modelled as exact rationals (`ℚ`), timestamps as
integers, identifiers as naturals.  Fallible operations return `Option`
(`none` models a raised exception).  The store is a record of lists of
operations, clients and audit-log entries; each CRUD method of
`DatabaseOperations` becomes a function on the store.
-/

namespace Alma

/-- `database.ClientType` enum. -/
inductive ClientType where
  | REGULAR
  | FREQUENT
deriving DecidableEq, Repr

/-- `database.OperationStatus` enum. -/
inductive OperationStatus where
  | PENDING
  | ASSIGNED
  | COLLECTING
  | COLLECTED
  | VALIDATED
  | DELIVERED_TO_FX
  | FX_PROCESSING
  | COMPLETED
  | CANCELLED
  | ERROR
deriving DecidableEq, Repr

/-- The `.value` string of each `OperationStatus` member. -/
def statusValue : OperationStatus → String
  | .PENDING => "Pending"
  | .ASSIGNED => "Assigned"
  | .COLLECTING => "Collecting"
  | .COLLECTED => "Collected"
  | .VALIDATED => "Validated"
  | .DELIVERED_TO_FX => "Delivered to FX"
  | .FX_PROCESSING => "FX Processing"
  | .COMPLETED => "Completed"
  | .CANCELLED => "Cancelled"
  | .ERROR => "Error"

/-- `Config.COMMISSION_RATES` nested dict: a lookup that is `none` exactly
when one of the two keys is absent (a Python `KeyError`).
Rates: regular 0.07 / 0.06 / 0.05, frequent 0.06 / 0.05 / 0.04. -/
def COMMISSION_RATES (client_type bracket : String) : Option ℚ :=
  if client_type = "regular" then
    if bracket = "low" then some (7/100)
    else if bracket = "medium" then some (6/100)
    else if bracket = "high" then some (5/100)
    else none
  else if client_type = "frequent" then
    if bracket = "low" then some (6/100)
    else if bracket = "medium" then some (5/100)
    else if bracket = "high" then some (4/100)
    else none
  else none

/-- `Config.FX_PROVIDER_COMMISSION` (0.015). -/
def FX_PROVIDER_COMMISSION : ℚ := 15/1000

/-- `Config.MAX_OPERATION_AMOUNT`. -/
def MAX_OPERATION_AMOUNT : ℚ := 50000

/-- `Config.MIN_OPERATION_AMOUNT`. -/
def MIN_OPERATION_AMOUNT : ℚ := 100

/-- Result dict of `config.calculate_commission`. -/
structure CommissionBreakdown where
  gross_amount : ℚ
  commission_rate : ℚ
  commission_amount : ℚ
  fx_commission : ℚ
  net_amount : ℚ
deriving DecidableEq, Repr

/-- `config.calculate_commission`.  The rate lookup
`COMMISSION_RATES[client_type][bracket]` raises `KeyError` (modelled by
`none`) when `client_type` is not a key of the dict. -/
def calculate_commission (amount : ℚ) (client_type : String) : Option CommissionBreakdown :=
  match
    (if amount < 5000 then COMMISSION_RATES client_type "low"
     else if amount ≤ 20000 then COMMISSION_RATES client_type "medium"
     else COMMISSION_RATES client_type "high") with
  | none => none
  | some rate =>
      some { gross_amount := amount
             commission_rate := rate
             commission_amount := amount * rate
             fx_commission := amount * FX_PROVIDER_COMMISSION
             net_amount := amount - amount * rate }

/-- The input dict of `config.validate_operation_data`; `none` models an
absent key, `some` a present value.  A present empty string and a present
`0` amount are falsy in Python, exactly as `data.get(k)` sees them. -/
structure OperationInput where
  client_name : Option String
  amount : Option ℚ
  usdt_wallet : Option String
  pickup_address : Option String
deriving DecidableEq, Repr

/-- Python truthiness of `data.get(key)` for a string field: false when the
key is absent or the string is empty. -/
def strTruthy : Option String → Bool
  | none => false
  | some s => s ≠ ""

/-- `not data.get("amount") or data["amount"] < MIN_OPERATION_AMOUNT`:
true when amount is absent, zero (falsy) or below the minimum. -/
def amountTooLow : Option ℚ → Bool
  | none => true
  | some a => a = 0 ∨ a < MIN_OPERATION_AMOUNT

/-- `data.get("amount", 0) > MAX_OPERATION_AMOUNT`. -/
def amountTooHigh : Option ℚ → Bool
  | none => false
  | some a => MAX_OPERATION_AMOUNT < a

/-- `config.validate_operation_data`: appends one message per violated
check and returns the list of errors. -/
def validate_operation_data (data : OperationInput) : List String :=
  (if !strTruthy data.client_name then ["Client name is required"] else []) ++
  (if amountTooLow data.amount then ["Amount must be at least $100"] else []) ++
  (if amountTooHigh data.amount then ["Amount cannot exceed $50000"] else []) ++
  (if !strTruthy data.usdt_wallet then ["USDT wallet address is required"] else []) ++
  (if !strTruthy data.pickup_address then ["Pickup address is required"] else [])

/-- `utils.validate_usdt_address`: empty is invalid; `T…` of length 34 or
`0x…` of length 42 is valid; anything else invalid.  `startswith` and
`len` are taken on the character sequence of the string. -/
def validate_usdt_address (address : String) : Bool :=
  if address = "" then false
  else if "T".data.isPrefixOf address.data ∧ address.data.length = 34 then true
  else if "0x".data.isPrefixOf address.data ∧ address.data.length = 42 then true
  else false

/-- `database.Client` (the columns the operation pipeline touches). -/
structure Client where
  id : Nat
  name : String
  client_type : ClientType
  total_operations : Nat
  total_volume : ℚ
deriving DecidableEq, Repr

/-- `database.Operation` row. -/
structure Operation where
  id : Nat
  operation_id : String
  client_id : Nat
  pickup_address : String
  amount_usd : ℚ
  commission_rate : ℚ
  commission_amount : ℚ
  fx_commission : ℚ
  net_amount : ℚ
  estimated_usdt : ℚ
  usdt_wallet : String
  status : OperationStatus
  collector_id : Option Nat
  fx_provider : Option String
  created_at : Int
  deadline : Option Int
  completed_at : Option Int
  priority : String
  notes : Option String
deriving DecidableEq, Repr

/-- `database.OperationLog` row. -/
structure LogEntry where
  operation_id : Nat
  user_id : Option Nat
  action : String
  details : Option String
deriving DecidableEq, Repr

/-- The backing store: the three tables the pipeline writes. -/
structure Store where
  operations : List Operation
  clients : List Client
  logs : List LogEntry
deriving DecidableEq, Repr

/-- `DatabaseOperations.log_operation_action`: inserts one audit-log row
in its own session and commits it. -/
def log_operation_action (s : Store) (operation_id : Nat) (user_id : Option Nat)
    (action : String) (details : Option String) : Store :=
  { s with logs := s.logs ++ [{ operation_id := operation_id, user_id := user_id,
                                action := action, details := details }] }

/-- The mutation `DatabaseOperations.update_client_stats` performs on the
fetched client: `total_operations += 1`, `total_volume += amount`, then
promote to `FREQUENT` when the updated totals reach 5 operations and
25 000 volume. -/
def update_client_stats (c : Client) (operation_amount : ℚ) : Client :=
  let c1 := { c with total_operations := c.total_operations + 1
                     total_volume := c.total_volume + operation_amount }
  if c1.total_operations ≥ 5 ∧ c1.total_volume ≥ 25000 then
    { c1 with client_type := ClientType.FREQUENT }
  else c1

/-- `DatabaseOperations.update_client_stats` on the store: `session.get`
finds the client by id (`if client:` makes a missing id a no-op). -/
def update_client_stats_store (s : Store) (client_id : Nat) (operation_amount : ℚ) : Store :=
  let f := fun c => if c.id = client_id then update_client_stats c operation_amount else c
  { s with clients := s.clients.map f }

/-- The `operation_data` dict passed to `create_operation`, after the
`.get` defaults have been applied (`client_type` defaults to `"regular"`,
`priority` to `"Normal"`). -/
structure CreateInput where
  client_id : Nat
  pickup_address : String
  amount_usd : ℚ
  client_type : String
  usdt_wallet : String
  collector_id : Option Nat
  fx_provider : Option String
  deadline : Option Int
  priority : String
  notes : Option String
  created_by_user_id : Option Nat
deriving DecidableEq, Repr

/-- Which step of `create_operation`, if any, raises a persistence error.
Each of the three writes commits in its own `AsyncSessionLocal` session,
so a failure point identifies which commit raises. -/
inductive CreateFailure where
  | noFailure
  | atOperationCommit
  | atLogCommit
  | atStatsCommit
deriving DecidableEq, Repr

/-- Outcome of `create_operation`: the store after the call and the
returned operation (`none` when the call raised). -/
structure CreateOutcome where
  store : Store
  result : Option Operation
deriving DecidableEq, Repr

/-- `DatabaseOperations.create_operation`.  The operation insert commits
first in its own session; `log_operation_action` and
`update_client_stats` then each open and commit their own sessions.  The
`except` clause calls `rollback()` on the first session — after that
session has already committed, the rollback undoes nothing, so a failure
in a later step leaves the earlier commits in place and re-raises. -/
def create_operation (s : Store) (d : CreateInput) (newId : Nat) (opCode : String)
    (now : Int) (fail : CreateFailure) : CreateOutcome :=
  match calculate_commission d.amount_usd d.client_type with
  | none => { store := s, result := none }
  | some ci =>
    if fail = CreateFailure.atOperationCommit then
      { store := s, result := none }
    else
      let op : Operation :=
        { id := newId
          operation_id := opCode
          client_id := d.client_id
          pickup_address := d.pickup_address
          amount_usd := d.amount_usd
          commission_rate := ci.commission_rate
          commission_amount := ci.commission_amount
          fx_commission := ci.fx_commission
          net_amount := ci.net_amount
          estimated_usdt := ci.net_amount * (95/100)
          usdt_wallet := d.usdt_wallet
          status := OperationStatus.PENDING
          collector_id := d.collector_id
          fx_provider := d.fx_provider
          created_at := now
          deadline := d.deadline
          completed_at := none
          priority := d.priority
          notes := d.notes }
      let s1 := { s with operations := s.operations ++ [op] }
      if fail = CreateFailure.atLogCommit then
        { store := s1, result := none }
      else
        let s2 := log_operation_action s1 newId d.created_by_user_id "Operation Created"
          (some ("Operation " ++ opCode ++ " created with amount $" ++ toString d.amount_usd))
        if fail = CreateFailure.atStatsCommit then
          { store := s2, result := none }
        else
          { store := update_client_stats_store s2 d.client_id d.amount_usd, result := some op }

/-- The mutation `update_operation_status` performs on the fetched
operation: set `status`, and set `completed_at` to now exactly when the
new status is `COMPLETED`. -/
def applyStatusUpdate (o : Operation) (new_status : OperationStatus) (now : Int) : Operation :=
  let o1 := { o with status := new_status }
  if new_status = OperationStatus.COMPLETED then { o1 with completed_at := some now } else o1

/-- Details string of the "Status Updated" audit-log entry. -/
def statusChangeDetails (old new : OperationStatus) (nts : Option String) : String :=
  "Status changed from " ++ statusValue old ++ " to " ++ statusValue new ++
    (match nts with
     | some n => ". Notes: " ++ n
     | none => "")

/-- `DatabaseOperations.update_operation_status`: `ValueError` (`none`)
when the id is absent; otherwise commit the status mutation and append a
"Status Updated" audit-log entry. -/
def update_operation_status (s : Store) (operation_id : Nat) (new_status : OperationStatus)
    (user_id : Option Nat) (nts : Option String) (now : Int) : Option Store :=
  match s.operations.find? (fun o => o.id == operation_id) with
  | none => none
  | some op =>
    let f := fun o => if o.id == operation_id then applyStatusUpdate o new_status now else o
    let s1 := { s with operations := s.operations.map f }
    some (log_operation_action s1 operation_id user_id "Status Updated"
      (some (statusChangeDetails op.status new_status nts)))

/-- Result of `delete_operation`: `notFound` models the `False` return,
`stateConflict` the raised `ValueError`, `ok` the `True` return. -/
inductive DeleteResult where
  | notFound
  | stateConflict
  | ok
deriving DecidableEq, Repr

/-- `DatabaseOperations.delete_operation` (soft delete): `False` when the
id is absent; `ValueError` when the status is neither `PENDING` nor
`ASSIGNED` (nothing written before the raise); otherwise set the status
to `CANCELLED`, append an "Operation Cancelled" audit-log entry and
return `True`. -/
def delete_operation (s : Store) (operation_id : Nat) (user_id : Option Nat) :
    DeleteResult × Store :=
  match s.operations.find? (fun o => o.id == operation_id) with
  | none => (DeleteResult.notFound, s)
  | some op =>
    if op.status = OperationStatus.PENDING ∨ op.status = OperationStatus.ASSIGNED then
      let f := fun o =>
        if o.id == operation_id then { o with status := OperationStatus.CANCELLED } else o
      let s1 := { s with operations := s.operations.map f }
      (DeleteResult.ok,
       log_operation_action s1 operation_id user_id "Operation Cancelled"
         (some "Operation cancelled by user"))
    else
      (DeleteResult.stateConflict, s)

/-- The status set of the "active operations" count in
`get_operations_analytics`. -/
def isActiveStatus : OperationStatus → Bool
  | .PENDING => true
  | .ASSIGNED => true
  | .COLLECTING => true
  | .COLLECTED => true
  | .VALIDATED => true
  | .FX_PROCESSING => true
  | _ => false

/-- Result dict of `get_operations_analytics`. -/
structure Analytics where
  total_operations : Nat
  total_volume : ℚ
  completed_operations : Nat
  active_operations : Nat
  total_commission : ℚ
  completion_rate : ℚ
  average_operation_size : ℚ
deriving DecidableEq, Repr

/-- `DatabaseOperations.get_operations_analytics`.  `cutoff_date` is
`now - days` (time measured in days).  Each aggregate mirrors one SQL
query of the source: the totals, completed count and commission sum
filter on `created_at >= cutoff_date`; the active-operations count
filters on status only. -/
def get_operations_analytics (s : Store) (now : Int) (days : Int) : Analytics :=
  let cutoff := now - days
  let total_ops := (s.operations.filter (fun o => cutoff ≤ o.created_at)).length
  let total_volume :=
    ((s.operations.filter (fun o => cutoff ≤ o.created_at)).map Operation.amount_usd).sum
  let completed_ops :=
    (s.operations.filter
      (fun o => cutoff ≤ o.created_at ∧ o.status = OperationStatus.COMPLETED)).length
  let active_ops := (s.operations.filter (fun o => isActiveStatus o.status)).length
  let total_commission :=
    ((s.operations.filter
        (fun o => cutoff ≤ o.created_at ∧ o.status = OperationStatus.COMPLETED)).map
      Operation.commission_amount).sum
  { total_operations := total_ops
    total_volume := total_volume
    completed_operations := completed_ops
    active_operations := active_ops
    total_commission := total_commission
    completion_rate := if total_ops > 0 then (completed_ops : ℚ) / (total_ops : ℚ) * 100 else 0
    average_operation_size := if total_ops > 0 then total_volume / (total_ops : ℚ) else 0 }

/-! Concrete fixtures used to evaluate the operations on closed inputs. -/

/-- A regular client sitting below both promotion thresholds. -/
def exClient : Client :=
  { id := 1, name := "Maria Garcia", client_type := ClientType.REGULAR,
    total_operations := 3, total_volume := 25000 }

/-- A store holding only `exClient`. -/
def exStore : Store := { operations := [], clients := [exClient], logs := [] }

/-- A well-formed `create_operation` input for `exClient`. -/
def exCreateInput : CreateInput :=
  { client_id := 1, pickup_address := "742 Evergreen Terrace", amount_usd := 1000,
    client_type := "regular", usdt_wallet := "T123456789012345678901234567890123",
    collector_id := none, fx_provider := none, deadline := none, priority := "Normal",
    notes := none, created_by_user_id := none }

/-- A pending operation created 100 days before the reference instant. -/
def exOldOp : Operation :=
  { id := 2, operation_id := "MSB-2025-08-01-001", client_id := 1, pickup_address := "x",
    amount_usd := 1000, commission_rate := 7/100, commission_amount := 70, fx_commission := 15,
    net_amount := 930, estimated_usdt := 930 * (95/100), usdt_wallet := "T1",
    status := OperationStatus.PENDING, collector_id := none, fx_provider := none,
    created_at := -100, deadline := none, completed_at := none, priority := "Normal",
    notes := none }

/-- A store holding only `exOldOp`. -/
def exOldStore : Store := { operations := [exOldOp], clients := [], logs := [] }

/-- `exOldStore` after `update_operation_status _ 2 COMPLETED none none 5`. -/
def exOldStoreCompleted : Store :=
  { operations := [{ exOldOp with status := OperationStatus.COMPLETED, completed_at := some 5 }],
    clients := [],
    logs := [{ operation_id := 2, user_id := none, action := "Status Updated",
               details := some "Status changed from Pending to Completed" }] }

/-- An operation already in progress (status `Collecting`). -/
def exCollectingOp : Operation := { exOldOp with id := 3, status := OperationStatus.COLLECTING }

/-- A store holding only `exCollectingOp`. -/
def exCollectingStore : Store := { operations := [exCollectingOp], clients := [], logs := [] }

/-- The promotion scenario of the spec: a regular client at 4 operations and
20 000 volume. -/
def exPromoClient : Client :=
  { id := 9, name := "Sarah Johnson", client_type := ClientType.REGULAR,
    total_operations := 4, total_volume := 20000 }

/-- A validation input that is complete and in range except that the
wallet address has an invalid format. -/
def exBadWalletInput : OperationInput :=
  { client_name := some "A", amount := some 1000, usdt_wallet := some "T12345",
    pickup_address := some "X" }

/-- A validation input whose amount is 60 000: inside the claimed spec
range `[100, 100 000]`, above `MAX_OPERATION_AMOUNT = 50 000` in the code. -/
def exBigAmountInput : OperationInput :=
  { client_name := some "A", amount := some 60000,
    usdt_wallet := some "T123456789012345678901234567890123", pickup_address := some "X" }

end Alma

namespace Alma

/-! Helper lemmas shared by several claims. -/

lemma filter_and_eq (l : List Operation) (p q : Operation → Bool) :
    l.filter (fun o => p o && q o) = (l.filter p).filter q := by
  induction l with
  | nil => rfl
  | cons a t ih =>
      cases hp : p a <;> cases hq : q a <;> simp [List.filter_cons, hp, hq, ih]

lemma length_filter_split (l : List Operation) (p q : Operation → Bool) :
    (l.filter q).length =
      ((l.filter p).filter q).length +
      ((l.filter (fun o => !(p o))).filter q).length := by
  induction l with
  | nil => rfl
  | cons a t ih =>
      cases hp : p a <;> cases hq : q a <;>
        simp [List.filter_cons, hp, hq, ih] <;> omega

lemma mem_validate_operation_data (d : OperationInput) (msg : String) :
    msg ∈ validate_operation_data d ↔
      ((strTruthy d.client_name = false ∧ msg = "Client name is required") ∨
       (amountTooLow d.amount = true ∧ msg = "Amount must be at least $100") ∨
       (amountTooHigh d.amount = true ∧ msg = "Amount cannot exceed $50000") ∨
       (strTruthy d.usdt_wallet = false ∧ msg = "USDT wallet address is required") ∨
       (strTruthy d.pickup_address = false ∧ msg = "Pickup address is required")) := by
  unfold validate_operation_data
  cases h1 : strTruthy d.client_name <;> cases h2 : amountTooLow d.amount <;>
    cases h3 : amountTooHigh d.amount <;> cases h4 : strTruthy d.usdt_wallet <;>
      cases h5 : strTruthy d.pickup_address <;> simp

/-! Claim theorems. -/

/-- C2: for every positive amount, `calculate_commission` returns rate
0.07 / 0.06 / 0.05 (regular) on the brackets `< 5000`, `5000–20000`
inclusive, `> 20000`, and 0.06 / 0.05 / 0.04 (frequent) — exactly 0.01
lower per bracket. -/
theorem calculate_commission_bracket_rates (a : ℚ) (h : 0 < a) :
    (a < 5000 →
      (calculate_commission a "regular").map CommissionBreakdown.commission_rate = some (7/100) ∧
      (calculate_commission a "frequent").map CommissionBreakdown.commission_rate = some (6/100)) ∧
    (5000 ≤ a → a ≤ 20000 →
      (calculate_commission a "regular").map CommissionBreakdown.commission_rate = some (6/100) ∧
      (calculate_commission a "frequent").map CommissionBreakdown.commission_rate = some (5/100)) ∧
    (20000 < a →
      (calculate_commission a "regular").map CommissionBreakdown.commission_rate = some (5/100) ∧
      (calculate_commission a "frequent").map CommissionBreakdown.commission_rate = some (4/100)) := by
  refine ⟨fun h1 => ?_, fun h1 h2 => ?_, fun h1 => ?_⟩
  · simp [calculate_commission, COMMISSION_RATES, h1]
  · have hnl : ¬ a < 5000 := not_lt.mpr h1
    simp [calculate_commission, COMMISSION_RATES, hnl, h2]
  · have hnl : ¬ a < 5000 := by push_neg; linarith
    have hnle : ¬ a ≤ 20000 := not_le.mpr h1
    simp [calculate_commission, COMMISSION_RATES, hnl, hnle]

/-- Witness for C2 at the concrete amount 1000. -/
theorem calculate_commission_bracket_rates_witness :
    (calculate_commission 1000 "regular").map CommissionBreakdown.commission_rate =
      some (7/100) :=
  ((calculate_commission_bracket_rates 1000 (by norm_num)).1 (by norm_num)).1

/-- C4, counterexample: `calculate_commission(1000, "vip")` raises a
`KeyError` (modelled by `none`) instead of returning the regular-tier
breakdown — the claim that no tier ever raises and unrecognized tiers
default to regular is false. -/
theorem calculate_commission_unknown_tier_counterexample :
    calculate_commission 1000 "vip" = none ∧
    calculate_commission 1000 "regular" ≠ none ∧
    calculate_commission 1000 "vip" ≠ calculate_commission 1000 "regular" := by
  refine ⟨by decide, by decide, by decide⟩

/-- C4, amended: `calculate_commission` returns a breakdown exactly for
the tiers `"regular"` and `"frequent"`; any other tier string raises a
`KeyError` (modelled by `none`) — there is no defaulting. -/
theorem calculate_commission_tier_domain (a : ℚ) (t : String) :
    (calculate_commission a t).isSome = true ↔ (t = "regular" ∨ t = "frequent") := by
  by_cases h1 : a < 5000 <;> by_cases h2 : a ≤ 20000 <;>
    by_cases ht : t = "regular" <;> by_cases ht2 : t = "frequent" <;>
      simp [calculate_commission, COMMISSION_RATES, h1, h2, ht, ht2]

/-- Witness for the amended theorem of C4 at amount 1000, tier regular. -/
theorem calculate_commission_tier_domain_witness :
    (calculate_commission 1000 "regular").isSome = true :=
  (calculate_commission_tier_domain 1000 "regular").mpr (Or.inl rfl)

/-- C9: whenever `calculate_commission` returns a breakdown for a
positive amount, `commission_amount + net_amount` equals the gross
amount exactly (amounts are exact rationals in this embedding, so there
is no rounding drift at all). -/
theorem commission_plus_net_eq_gross (a : ℚ) (t : String) (b : CommissionBreakdown)
    (h : 0 < a) (hb : calculate_commission a t = some b) :
    b.commission_amount + b.net_amount = b.gross_amount ∧ b.gross_amount = a := by
  unfold calculate_commission at hb
  split at hb
  · exact absurd hb (by simp)
  · cases hb
    constructor
    · simp only
      ring
    · rfl

/-- Witness for C9 at amount 10000, tier frequent. -/
theorem commission_plus_net_eq_gross_witness :
    (0 : ℚ) < 10000 ∧
    ({ gross_amount := 10000, commission_rate := 5/100, commission_amount := 500,
       fx_commission := 150, net_amount := 9500 } : CommissionBreakdown).commission_amount +
      ({ gross_amount := 10000, commission_rate := 5/100, commission_amount := 500,
         fx_commission := 150, net_amount := 9500 } : CommissionBreakdown).net_amount =
      ({ gross_amount := 10000, commission_rate := 5/100, commission_amount := 500,
         fx_commission := 150, net_amount := 9500 } : CommissionBreakdown).gross_amount :=
  ⟨by norm_num,
   (commission_plus_net_eq_gross 10000 "frequent" _ (by norm_num)
     (by simp [calculate_commission, COMMISSION_RATES, FX_PROVIDER_COMMISSION]
         norm_num)).1⟩

/-- C3, counterexample: the amount 60 000 lies inside the claimed range
`[100, 100 000]`, yet `validate_operation_data` reports an amount error,
because the maximum in the code is `MAX_OPERATION_AMOUNT = 50 000`. -/
theorem validate_amount_range_counterexample :
    (100 : ℚ) ≤ 60000 ∧ (60000 : ℚ) ≤ 100000 ∧
    validate_operation_data exBigAmountInput = ["Amount cannot exceed $50000"] := by
  refine ⟨by norm_num, by norm_num, by decide⟩

/-- C3, amended: `validate_operation_data` enforces the range
`[100, 50 000]`: with a present amount `a` it reports the minimum error
iff `a < 100` and the maximum error iff `a > 50 000` (so no amount error
iff `100 ≤ a ≤ 50 000`); with the amount missing it reports the minimum
error and not the maximum error. -/
theorem validate_amount_range (d : OperationInput) :
    (∀ a : ℚ, d.amount = some a →
      (("Amount must be at least $100" ∈ validate_operation_data d) ↔ a < 100) ∧
      (("Amount cannot exceed $50000" ∈ validate_operation_data d) ↔ 50000 < a)) ∧
    (d.amount = none →
      "Amount must be at least $100" ∈ validate_operation_data d ∧
      "Amount cannot exceed $50000" ∉ validate_operation_data d) := by
  constructor
  · intro a ha
    constructor
    · rw [mem_validate_operation_data]
      simp [amountTooLow, amountTooHigh, ha, MIN_OPERATION_AMOUNT]
      rintro rfl
      norm_num
    · rw [mem_validate_operation_data]
      simp [amountTooLow, amountTooHigh, ha, MAX_OPERATION_AMOUNT]
  · intro ha
    constructor
    · rw [mem_validate_operation_data]
      simp [amountTooLow, ha]
    · rw [mem_validate_operation_data]
      simp [amountTooHigh, ha]

/-- Witness for the amended theorem of C3: the maximum-error membership at the
concrete amount 60 000 of `exBigAmountInput`. -/
theorem validate_amount_range_witness :
    "Amount cannot exceed $50000" ∈ validate_operation_data exBigAmountInput :=
  (((validate_amount_range exBigAmountInput).1 60000 rfl).2).mpr (by norm_num)

/-- C5, counterexample: `exBadWalletInput` carries the present but
ill-formatted wallet address `"T12345"` (rejected by
`validate_usdt_address`), yet `validate_operation_data` returns the empty
error list — it never checks the wallet format, only its presence. -/
theorem wallet_format_not_checked_counterexample :
    validate_usdt_address "T12345" = false ∧
    validate_operation_data exBadWalletInput = [] := by
  refine ⟨by decide, by decide⟩

/-- C5, amended: `validate_operation_data` reports a wallet error exactly
when the wallet field is absent or empty (format is not consulted); the
format check lives only in the separate helper `validate_usdt_address`,
which does reject every non-empty address that is neither a 34-character
`T…` string nor a 42-character `0x…` string. -/
theorem wallet_presence_only (d : OperationInput) (addr : String) :
    (("USDT wallet address is required" ∈ validate_operation_data d) ↔
      strTruthy d.usdt_wallet = false) ∧
    (addr ≠ "" → ¬("T".data.isPrefixOf addr.data ∧ addr.data.length = 34) →
      ¬("0x".data.isPrefixOf addr.data ∧ addr.data.length = 42) →
      validate_usdt_address addr = false) := by
  constructor
  · rw [mem_validate_operation_data]
    simp
  · intro h1 h2 h3
    unfold validate_usdt_address
    rw [if_neg h1, if_neg h2, if_neg h3]

/-- Witness for the amended theorem of C5 at `exBadWalletInput` and the
concrete address `"T12345"`. -/
theorem wallet_presence_only_witness :
    validate_usdt_address "T12345" = false :=
  (wallet_presence_only exBadWalletInput "T12345").2 (by decide) (by decide) (by decide)

/-- C8: recording a new operation for a client adds 1 to the cumulative
operation count and the amount to the cumulative volume, and the updated
client is `frequent` exactly when it already was `frequent` (no
demotion) or the updated totals reach 5 operations and 25 000 volume. -/
theorem update_client_stats_promotion (c : Client) (amt : ℚ) :
    (update_client_stats c amt).total_operations = c.total_operations + 1 ∧
    (update_client_stats c amt).total_volume = c.total_volume + amt ∧
    ((update_client_stats c amt).client_type = ClientType.FREQUENT ↔
      (c.client_type = ClientType.FREQUENT ∨
        (5 ≤ c.total_operations + 1 ∧ 25000 ≤ c.total_volume + amt))) := by
  unfold update_client_stats
  dsimp only
  split_ifs with hsplit
  · simp [hsplit]
  · refine ⟨rfl, rfl, ?_⟩
    simp only []
    constructor
    · intro hty
      exact Or.inl hty
    · rintro (hty | hcond)
      · exact hty
      · exact absurd hcond hsplit

/-- Witness for C8: the spec scenario — `exPromoClient` (4 operations,
20 000 volume, regular) plus an operation of amount 6000 reaches 5
operations and 26 000 volume and is promoted to frequent. -/
theorem update_client_stats_promotion_witness :
    (update_client_stats exPromoClient 6000).client_type = ClientType.FREQUENT ∧
    (update_client_stats exPromoClient 6000).total_operations = 5 ∧
    (update_client_stats exPromoClient 6000).total_volume = 26000 :=
  have h := update_client_stats_promotion exPromoClient 6000
  ⟨h.2.2.mpr (Or.inr ⟨by norm_num [exPromoClient], by norm_num [exPromoClient]⟩),
   h.1.trans (by norm_num [exPromoClient]),
   h.2.1.trans (by norm_num [exPromoClient])⟩

/-- C6: `delete_operation` returns false (leaving the store unchanged)
when the operation does not exist; fails with a state-conflict error and
leaves the store unchanged when the status is neither `Pending` nor
`Assigned`; otherwise sets the status to `Cancelled`, appends an
"Operation Cancelled" audit-log entry, and returns true. -/
theorem delete_operation_spec (s : Store) (oid : Nat) (uid : Option Nat) :
    (s.operations.find? (fun o => o.id == oid) = none →
      delete_operation s oid uid = (DeleteResult.notFound, s)) ∧
    (∀ op, s.operations.find? (fun o => o.id == oid) = some op →
      op.status ≠ OperationStatus.PENDING → op.status ≠ OperationStatus.ASSIGNED →
      delete_operation s oid uid = (DeleteResult.stateConflict, s)) ∧
    (∀ op, s.operations.find? (fun o => o.id == oid) = some op →
      (op.status = OperationStatus.PENDING ∨ op.status = OperationStatus.ASSIGNED) →
      (delete_operation s oid uid).1 = DeleteResult.ok ∧
      (delete_operation s oid uid).2.operations = s.operations.map
        (fun o => if o.id == oid then { o with status := OperationStatus.CANCELLED } else o) ∧
      (delete_operation s oid uid).2.clients = s.clients ∧
      (delete_operation s oid uid).2.logs = s.logs ++
        [{ operation_id := oid, user_id := uid, action := "Operation Cancelled",
           details := some "Operation cancelled by user" }]) := by
  refine ⟨?_, ?_, ?_⟩
  · intro h
    simp [delete_operation, h]
  · intro op h h1 h2
    simp [delete_operation, h, h1, h2]
  · intro op h hor
    simp only [delete_operation, h]
    rw [if_pos hor]
    exact ⟨rfl, rfl, rfl, rfl⟩

/-- Witness for C6: on `exCollectingStore`, whose only operation is in
status `Collecting`, cancellation fails with a state conflict and the
store is unchanged. -/
theorem delete_operation_spec_witness :
    delete_operation exCollectingStore 3 none = (DeleteResult.stateConflict, exCollectingStore) :=
  (delete_operation_spec exCollectingStore 3 none).2.1 exCollectingOp (by rfl)
    (by decide) (by decide)

/-- C10: a successful `update_operation_status` leaves every client
record unchanged, rewrites the operation table by updating only the
targeted operation (`applyStatusUpdate` is the identity on every other
operation), and `applyStatusUpdate` itself changes only the status field
and — exactly when the new status is `Completed` — the `completed_at`
field, which is never cleared. -/
theorem update_operation_status_frame (s : Store) (oid : Nat) (st : OperationStatus)
    (uid : Option Nat) (nts : Option String) (now : Int) (s' : Store)
    (h : update_operation_status s oid st uid nts now = some s') :
    s'.clients = s.clients ∧
    s'.operations = s.operations.map
      (fun o => if o.id == oid then applyStatusUpdate o st now else o) ∧
    (∀ o : Operation, o.id ≠ oid →
      (if o.id == oid then applyStatusUpdate o st now else o) = o) ∧
    (∀ o : Operation,
      (applyStatusUpdate o st now).status = st ∧
      (applyStatusUpdate o st now).completed_at =
        (if st = OperationStatus.COMPLETED then some now else o.completed_at) ∧
      (applyStatusUpdate o st now).id = o.id ∧
      (applyStatusUpdate o st now).operation_id = o.operation_id ∧
      (applyStatusUpdate o st now).client_id = o.client_id ∧
      (applyStatusUpdate o st now).pickup_address = o.pickup_address ∧
      (applyStatusUpdate o st now).amount_usd = o.amount_usd ∧
      (applyStatusUpdate o st now).commission_rate = o.commission_rate ∧
      (applyStatusUpdate o st now).commission_amount = o.commission_amount ∧
      (applyStatusUpdate o st now).fx_commission = o.fx_commission ∧
      (applyStatusUpdate o st now).net_amount = o.net_amount ∧
      (applyStatusUpdate o st now).estimated_usdt = o.estimated_usdt ∧
      (applyStatusUpdate o st now).usdt_wallet = o.usdt_wallet ∧
      (applyStatusUpdate o st now).collector_id = o.collector_id ∧
      (applyStatusUpdate o st now).fx_provider = o.fx_provider ∧
      (applyStatusUpdate o st now).created_at = o.created_at ∧
      (applyStatusUpdate o st now).deadline = o.deadline ∧
      (applyStatusUpdate o st now).priority = o.priority ∧
      (applyStatusUpdate o st now).notes = o.notes) ∧
    (∀ o : Operation, o.completed_at ≠ none →
      (applyStatusUpdate o st now).completed_at ≠ none) := by
  rcases hfind : s.operations.find? (fun o => o.id == oid) with _ | op
  · rw [update_operation_status, hfind] at h
    exact absurd h (by simp)
  · rw [update_operation_status, hfind] at h
    injection h with h
    subst h
    refine ⟨rfl, rfl, ?_, ?_, ?_⟩
    · intro o hne
      rw [if_neg (by simpa using hne)]
    · intro o
      unfold applyStatusUpdate
      by_cases hst : st = OperationStatus.COMPLETED <;> simp [hst]
    · intro o hco
      unfold applyStatusUpdate
      by_cases hst : st = OperationStatus.COMPLETED <;> simp [hst, hco]

/-- Witness for C10: completing the pending operation of `exOldStore`
leaves the client table unchanged and rewrites the operation list
pointwise. -/
theorem update_operation_status_frame_witness :
    exOldStoreCompleted.clients = exOldStore.clients ∧
    exOldStoreCompleted.operations = exOldStore.operations.map
      (fun o => if o.id == 2 then applyStatusUpdate o OperationStatus.COMPLETED 5 else o) :=
  have h := update_operation_status_frame exOldStore 2 OperationStatus.COMPLETED
    none none 5 exOldStoreCompleted (by rfl)
  ⟨h.1, h.2.1⟩

/-- C1, refuted (code bug): when the audit-log commit fails after the
operation insert has already committed in its own session,
`create_operation` surfaces the error (`result = none`) but leaves the
operation row persisted with no "Operation Created" log entry and no
client-stats update — the rollback in the `except` clause acts on an
already-committed session, so the store is not restored.  The claimed
all-or-nothing behaviour is violated at this input. -/
theorem create_operation_torn_commit_on_log_failure :
    (create_operation exStore exCreateInput 7 "MSB-2025-10-12-001" 0
      CreateFailure.atLogCommit).result = none ∧
    (create_operation exStore exCreateInput 7 "MSB-2025-10-12-001" 0
      CreateFailure.atLogCommit).store.operations.length = exStore.operations.length + 1 ∧
    (create_operation exStore exCreateInput 7 "MSB-2025-10-12-001" 0
      CreateFailure.atLogCommit).store.logs = exStore.logs ∧
    (create_operation exStore exCreateInput 7 "MSB-2025-10-12-001" 0
      CreateFailure.atLogCommit).store.clients = exStore.clients ∧
    (create_operation exStore exCreateInput 7 "MSB-2025-10-12-001" 0
      CreateFailure.atLogCommit).store ≠ exStore := by
  have hlen : (create_operation exStore exCreateInput 7 "MSB-2025-10-12-001" 0
      CreateFailure.atLogCommit).store.operations.length = 1 := rfl
  refine ⟨rfl, rfl, rfl, rfl, ?_⟩
  intro heq
  rw [heq] at hlen
  exact absurd hlen (by decide)

/-- C7, counterexample: `exOldStore` holds one pending operation created
outside the 30-day window (`created_at = -100 < -30`); the analytics
count zero operations in the window yet report one active operation, so
the active count aggregates an operation not created within the trailing
window. -/
theorem analytics_active_window_counterexample :
    exOldOp.created_at < 0 - 30 ∧
    (get_operations_analytics exOldStore 0 30).total_operations = 0 ∧
    (get_operations_analytics exOldStore 0 30).active_operations = 1 := by
  refine ⟨by decide, rfl, rfl⟩

/-- C7, amended: the analytics aggregate operations created within the
trailing window for the totals, the completed count, the commission sum
and both ratios (`completion_rate = completed/total × 100` and
`average_operation_size = volume/total`, both 0 when the windowed total
is 0), but the active-operations count ranges over ALL operations with
status in {Pending, Assigned, Collecting, Collected, Validated,
FX Processing}, regardless of creation time: it splits as the in-window
active count plus the out-of-window active count. -/
theorem get_operations_analytics_amended (s : Store) (now days : Int) :
    (get_operations_analytics s now days).total_operations =
      (s.operations.filter (fun o => now - days ≤ o.created_at)).length ∧
    (get_operations_analytics s now days).completed_operations =
      ((s.operations.filter (fun o => now - days ≤ o.created_at)).filter
        (fun o => o.status = OperationStatus.COMPLETED)).length ∧
    (get_operations_analytics s now days).total_commission =
      (((s.operations.filter (fun o => now - days ≤ o.created_at)).filter
          (fun o => o.status = OperationStatus.COMPLETED)).map
        Operation.commission_amount).sum ∧
    (get_operations_analytics s now days).active_operations =
      ((s.operations.filter (fun o => now - days ≤ o.created_at)).filter
        (fun o => isActiveStatus o.status)).length +
      ((s.operations.filter (fun o => o.created_at < now - days)).filter
        (fun o => isActiveStatus o.status)).length ∧
    (get_operations_analytics s now days).completion_rate =
      (if (get_operations_analytics s now days).total_operations = 0 then (0 : ℚ)
       else ((get_operations_analytics s now days).completed_operations : ℚ) /
         ((get_operations_analytics s now days).total_operations : ℚ) * 100) ∧
    (get_operations_analytics s now days).average_operation_size =
      (if (get_operations_analytics s now days).total_operations = 0 then (0 : ℚ)
       else (get_operations_analytics s now days).total_volume /
         ((get_operations_analytics s now days).total_operations : ℚ)) := by
  have hfun : (fun o : Operation => !(decide (now - days ≤ o.created_at))) =
      (fun o : Operation => decide (o.created_at < now - days)) := by
    funext o
    by_cases hx : now - days ≤ o.created_at
    · simp [hx, not_lt.mpr hx]
    · simp [hx, not_le.mp hx]
  refine ⟨rfl, ?_, ?_, ?_, ?_, ?_⟩
  · simp only [get_operations_analytics, Bool.decide_and]
    rw [filter_and_eq]
  · simp only [get_operations_analytics, Bool.decide_and]
    rw [filter_and_eq]
  · simp only [get_operations_analytics]
    rw [length_filter_split s.operations (fun o => decide (now - days ≤ o.created_at))
      (fun o => isActiveStatus o.status), hfun]
  · simp only [get_operations_analytics]
    by_cases h0 : (s.operations.filter (fun o => now - days ≤ o.created_at)).length = 0
    · rw [if_neg (by omega), if_pos h0]
    · rw [if_pos (Nat.pos_of_ne_zero h0), if_neg h0]
  · simp only [get_operations_analytics]
    by_cases h0 : (s.operations.filter (fun o => now - days ≤ o.created_at)).length = 0
    · rw [if_neg (by omega), if_pos h0]
    · rw [if_pos (Nat.pos_of_ne_zero h0), if_neg h0]

end Alma
